import Mathlib

/-
Verification of the infracost resource-graph / cost-computation engine
specification against the repository sources, centred on the Azure MSSQL
database resource builder (`internal/resources/azure/mssql_database.go`,
its provider constructor `NewAzureRMMSSQLDatabase` with `parseMSSQLSku`,
and the duplicated `SQLDatabase` implementation) and the usage-resolution
engine.  Go string primitives are re-implemented with structural recursion
over `String.data` so that every definition evaluates inside the kernel;
machine integers (`int64`) are modelled as `Int` with the explicit range
check Go's `strconv.ParseInt` performs.
-/

namespace Infracost

/-! ### Go string primitives

Structurally recursive models of the `strings` standard-library functions
used by the sources.  The case mappings cover ASCII, which is the alphabet
of every SKU, tier, licence-type and region string the resources handle. -/

/-- ASCII lower-casing of one character, as Go `unicode.ToLower` acts on
ASCII input. -/
def goCharToLower (c : Char) : Char :=
  if 65 ≤ c.toNat ∧ c.toNat ≤ 90 then Char.ofNat (c.toNat + 32) else c

/-- ASCII upper-casing of one character, as Go `unicode.ToTitle` acts on
ASCII input. -/
def goCharToUpper (c : Char) : Char :=
  if 97 ≤ c.toNat ∧ c.toNat ≤ 122 then Char.ofNat (c.toNat - 32) else c

/-- Go `strings.ToLower` (ASCII). -/
def goToLower (s : String) : String := ⟨s.data.map goCharToLower⟩

/-- Go `strings.ToTitle` (ASCII): maps every character to its title = upper
case. -/
def goToTitle (s : String) : String := ⟨s.data.map goCharToUpper⟩

/-- Go `strings.HasPrefix`. -/
def goHasPrefix (s pre : String) : Bool := pre.data.isPrefixOf s.data

/-- Containment of `sub` in `l` as a contiguous run, by checking a prefix
match at every position; Go `strings.Contains` on the underlying bytes. -/
def goContainsList (l sub : List Char) : Bool :=
  match l with
  | [] => sub.isEmpty
  | _ :: t => sub.isPrefixOf l || goContainsList t sub

/-- Go `strings.Contains`. -/
def goContains (s sub : String) : Bool := goContainsList s.data sub.data

/-- Splitting a character list at every occurrence of `sep`. -/
def splitChar (sep : Char) : List Char → List (List Char)
  | [] => [[]]
  | c :: t =>
    let r := splitChar sep t
    if c = sep then [] :: r
    else
      match r with
      | [] => [[c]]
      | h :: t2 => (c :: h) :: t2

/-- Go `strings.Split(s, "_")`: the SKU-segment split used by
`parseMSSQLSku`. -/
def goSplitUnderscore (s : String) : List String :=
  (splitChar '_' s.data).map (fun l => ⟨l⟩)

/-- Go `strings.Join(parts, "_")`. -/
def goJoinUnderscore : List String → String
  | [] => ""
  | [s] => s
  | s :: t => s ++ "_" ++ goJoinUnderscore t

/-- Go `s[:1]`: the first character of a (non-empty) string, as a string. -/
def goTake1 (s : String) : String := ⟨s.data.take 1⟩

/-- Go `strconv.ParseInt(s, 10, 64)`: optional sign, at least one decimal
digit, and an `int64` range check; any other input is an error (`none`). -/
def goParseInt64 (s : String) : Option Int :=
  match s.data with
  | [] => none
  | c :: rest =>
    let signed : Bool × List Char :=
      if c = '-' then (true, rest)
      else if c = '+' then (false, rest) else (false, c :: rest)
    let digits := signed.2
    if digits.isEmpty || !(digits.all Char.isDigit) then none
    else
      let mag : Int := digits.foldl (fun acc ch => acc * 10 + (ch.toNat - 48 : Int)) 0
      let v : Int := if signed.1 then -mag else mag
      if v < -(2 ^ 63) || 2 ^ 63 - 1 < v then none else some v

/-! ### Cost-component data model (`internal/schema`)

Quantities in the sources are `shopspring/decimal` values built with
`decimal.NewFromInt` and integer subtraction only, so they are embedded as
`Int`; Go's nil-able pointers become `Option`. -/

/-- One attribute filter of a product query (`schema.AttributeFilter`):
an exact `Value` or a `ValueRegex` pattern. -/
structure AttributeFilter where
  key : String
  value : Option String := none
  valueRegex : Option String := none
deriving Repr, DecidableEq

/-- Product-side price query (`schema.ProductFilter`). -/
structure ProductFilter where
  vendorName : Option String := none
  region : Option String := none
  service : Option String := none
  productFamily : Option String := none
  attributeFilters : List AttributeFilter := []
deriving Repr, DecidableEq

/-- Price-side query (`schema.PriceFilter`); only the purchase option is
used by these resources. -/
structure PriceFilter where
  purchaseOption : Option String := none
deriving Repr, DecidableEq

/-- A priced unit of cost (`schema.CostComponent`): hourly and monthly
quantities are mutually exclusive and nil-able. -/
structure CostComponent where
  name : String
  unit : String
  unitMultiplier : Int
  hourlyQuantity : Option Int := none
  monthlyQuantity : Option Int := none
  productFilter : Option ProductFilter := none
  priceFilter : Option PriceFilter := none
deriving Repr, DecidableEq

/-- One declared usage key with its default (`schema.UsageItem`); every key
of the MSSQL resources is an `Int64`, so the value type tag is omitted. -/
structure UsageItem where
  key : String
  defaultValue : Int
deriving Repr, DecidableEq

/-- A built resource (`schema.Resource`): name, declared usage schema and
cost components (the MSSQL resources declare no sub-resources). -/
structure Resource where
  name : String
  usageSchema : List UsageItem
  costComponents : List CostComponent
deriving Repr, DecidableEq

/-- Raw usage data for one resource address (`schema.UsageData`): Go's nil
map becomes `none`, otherwise a key-value list. -/
def UsageData : Type := Option (List (String × Int))

/-- Vendor constant of the Azure provider package (defined outside the
given sources; its exact text is irrelevant to every claim). -/
def vendorName : String := "azure"

/-! ### The MSSQL database resource (`internal/resources/azure/mssql_database.go`) -/

def sqlServiceName : String := "SQL Database"

def sqlProductFamily : String := "Databases"

def sqlServerlessTier : String := "general purpose - serverless"

def sqlHyperscaleTier : String := "hyperscale"

/-- `azure.MSSQLDatabase`: the typed resource an IaC provider initialises
before calling `BuildResource`. -/
structure MSSQLDatabase where
  Address : String := ""
  Region : String := ""
  SKU : String := ""
  LicenceType : String := ""
  Tier : String := ""
  Family : String := ""
  Cores : Int := 0
  MaxSizeGB : Option Int := none
  ReadReplicaCount : Option Int := none
  ZoneRedundant : Bool := false
  ExtraDataStorageGB : Option Int := none
  MonthlyVCoreHours : Option Int := none
  LongTermRetentionStorageGB : Option Int := none
deriving Repr, DecidableEq

/-- `MSSQLDatabase.mssqlSkuName`. -/
def MSSQLDatabase.mssqlSkuName (r : MSSQLDatabase) (cores : Int) : String :=
  let sku := toString cores ++ " vCore"
  if r.ZoneRedundant then sku ++ " Zone Redundancy" else sku

/-- Shared `PriceFilter` of the consumption-priced components. -/
def priceFilterConsumption : PriceFilter := { purchaseOption := some "Consumption" }

/-- The product filter shared by the SQL database components: vendor,
resource region, SQL service, database family, plus per-component
attribute filters. -/
def MSSQLDatabase.sqlProductFilter (r : MSSQLDatabase) (filters : List AttributeFilter) : ProductFilter :=
  { vendorName := some vendorName
    region := some r.Region
    service := some sqlServiceName
    productFamily := some sqlProductFamily
    attributeFilters := filters }

/-- `MSSQLDatabase.provisionedComputeCostComponent`. -/
def MSSQLDatabase.provisionedComputeCostComponent (r : MSSQLDatabase) : CostComponent :=
  let skuName := r.mssqlSkuName r.Cores
  let productNameRegex := "/" ++ r.Tier ++ " - " ++ r.Family ++ "/"
  { name := "Compute (provisioned, " ++ r.SKU ++ ")"
    unit := "hours"
    unitMultiplier := 1
    hourlyQuantity := some 1
    productFilter := some (r.sqlProductFilter
      [ { key := "productName", valueRegex := some productNameRegex }
      , { key := "skuName", value := some skuName } ])
    priceFilter := some priceFilterConsumption }

/-- `MSSQLDatabase.readReplicaCostComponent`: the hourly quantity is nil
whenever `ReadReplicaCount` is nil. -/
def MSSQLDatabase.readReplicaCostComponent (r : MSSQLDatabase) : CostComponent :=
  let productNameRegex := "/" ++ r.Tier ++ " - " ++ r.Family ++ "/"
  let skuName := r.mssqlSkuName r.Cores
  { name := "Read replicas"
    unit := "hours"
    unitMultiplier := 1
    hourlyQuantity := r.ReadReplicaCount
    productFilter := some (r.sqlProductFilter
      [ { key := "productName", valueRegex := some productNameRegex }
      , { key := "skuName", value := some skuName } ])
    priceFilter := some priceFilterConsumption }

/-- `MSSQLDatabase.serverlessComputeHoursCostComponent`: the monthly
quantity is nil whenever the `monthly_vcore_hours` usage is nil. -/
def MSSQLDatabase.serverlessComputeHoursCostComponent (r : MSSQLDatabase) : CostComponent :=
  let productNameRegex := "/" ++ r.Tier ++ " - " ++ r.Family ++ "/"
  let serverlessSkuName := r.mssqlSkuName 1
  { name := "Compute (serverless, " ++ r.SKU ++ ")"
    unit := "vCore-hours"
    unitMultiplier := 1
    monthlyQuantity := r.MonthlyVCoreHours
    productFilter := some (r.sqlProductFilter
      [ { key := "productName", valueRegex := some productNameRegex }
      , { key := "skuName", value := some serverlessSkuName } ])
    priceFilter := some priceFilterConsumption }

/-- The licence region chain of `sqlLicenseCostComponent`: `usgov`, then
`china`, then `germany` are tested in order, a later match overwriting an
earlier one, defaulting to `Global`. -/
def mssqlLicenseRegion (region : String) : String :=
  let licenseRegion := "Global"
  let licenseRegion := if goContains region "usgov" then "US Gov" else licenseRegion
  let licenseRegion := if goContains region "china" then "China" else licenseRegion
  if goContains region "germany" then "Germany" else licenseRegion

/-- `MSSQLDatabase.sqlLicenseCostComponent`. -/
def MSSQLDatabase.sqlLicenseCostComponent (r : MSSQLDatabase) : CostComponent :=
  { name := "SQL license"
    unit := "vCore-hours"
    unitMultiplier := 1
    hourlyQuantity := some r.Cores
    productFilter := some
      { vendorName := some vendorName
        region := some (mssqlLicenseRegion r.Region)
        service := some sqlServiceName
        productFamily := some sqlProductFamily
        attributeFilters :=
          [ { key := "productName", valueRegex := some ("/" ++ r.Tier ++ " - " ++ "SQL License" ++ "/") } ] }
    priceFilter := some priceFilterConsumption }

/-- `MSSQLDatabase.mssqlStorageComponent`: quantity defaults to 5 GB when
`MaxSizeGB` is nil; note the source attaches no price filter here. -/
def MSSQLDatabase.mssqlStorageComponent (r : MSSQLDatabase) : CostComponent :=
  let storageGB := match r.MaxSizeGB with
    | some m => m
    | none => 5
  let storageTier := if goToLower r.Tier = "general purpose - serverless" then "General Purpose" else r.Tier
  let skuName := if r.ZoneRedundant then storageTier ++ " Zone Redundancy" else storageTier
  let productNameRegex := "/" ++ storageTier ++ " - Storage/"
  { name := "Storage"
    unit := "GB"
    unitMultiplier := 1
    monthlyQuantity := some storageGB
    productFilter := some (r.sqlProductFilter
      [ { key := "productName", valueRegex := some productNameRegex }
      , { key := "skuName", value := some skuName }
      , { key := "meterName", valueRegex := some "/^Data Stored/" } ]) }

/-- `MSSQLDatabase.longTermRetentionMSSQLCostComponent`: the monthly
quantity is nil whenever the `long_term_retention_storage_gb` usage is
nil. -/
def MSSQLDatabase.longTermRetentionMSSQLCostComponent (r : MSSQLDatabase) : CostComponent :=
  { name := "Long-term retention"
    unit := "GB"
    unitMultiplier := 1
    monthlyQuantity := r.LongTermRetentionStorageGB
    productFilter := some (r.sqlProductFilter
      [ { key := "productName", value := some "SQL Database - LTR Backup Storage" }
      , { key := "skuName", value := some "Backup RA-GRS" }
      , { key := "meterName", value := some "RA-GRS Data Stored" } ])
    priceFilter := some priceFilterConsumption }

/-- `MSSQLDatabase.vCorePurchaseCostComponents`: serverless or provisioned
compute, read replicas for Hyperscale, the SQL licence for non-serverless
licence-included databases, storage, and long-term retention for
non-Hyperscale tiers — appended in source order. -/
def MSSQLDatabase.vCorePurchaseCostComponents (r : MSSQLDatabase) : List CostComponent :=
  let l : List CostComponent :=
    if goToLower r.Tier = sqlServerlessTier then [r.serverlessComputeHoursCostComponent]
    else [r.provisionedComputeCostComponent]
  let l := if goToLower r.Tier = sqlHyperscaleTier then l ++ [r.readReplicaCostComponent] else l
  let l :=
    if goToLower r.Tier ≠ sqlServerlessTier ∧ goToLower r.LicenceType = "licenseincluded" then
      l ++ [r.sqlLicenseCostComponent]
    else l
  let l := l ++ [r.mssqlStorageComponent]
  if goToLower r.Tier ≠ sqlHyperscaleTier then l ++ [r.longTermRetentionMSSQLCostComponent] else l

/-- The DTU compute component of `dtuPurchaseCostComponents` (the first
component appended there), for the already lower-cased, `basic`-to-`b`
normalised `skuName`. -/
def MSSQLDatabase.dtuComputeCostComponent (r : MSSQLDatabase) (skuName : String) : CostComponent :=
  { name := "Compute (" ++ goToTitle r.SKU ++ ")"
    unit := "days"
    unitMultiplier := 1
    monthlyQuantity := some 30
    productFilter := some (r.sqlProductFilter
      [ { key := "productName", valueRegex := some "/^SQL Database Single/i" }
      , { key := "skuName", valueRegex := some ("/^" ++ skuName ++ "$/i") } ])
    priceFilter := some priceFilterConsumption }

/-- The `p`/`s` prefix to tier-name mapping of the DTU storage component
(Go map lookup, yielding the empty string on a missing key). -/
def tierMapping (k : String) : String :=
  if k = "p" then "Premium" else if k = "s" then "Standard" else ""

/-- The `Extra data storage` component of `dtuPurchaseCostComponents`:
with no `extra_data_storage_gb` usage the quantity is `MaxSizeGB` minus
500 (Premium) or 250 (otherwise), nil when that difference is negative or
`MaxSizeGB` is nil; an explicit usage value replaces the derived value
entirely. -/
def MSSQLDatabase.extraDataStorageCostComponent (r : MSSQLDatabase) (skuName : String) : CostComponent :=
  let sn := tierMapping (goTake1 skuName)
  let storageGB : Option Int :=
    match r.MaxSizeGB with
    | none => none
    | some m =>
      let g := m - (if goToLower sn = "premium" then 500 else 250)
      if g < 0 then none else some g
  let storageGB : Option Int :=
    match r.ExtraDataStorageGB with
    | some e => some e
    | none => storageGB
  { name := "Extra data storage"
    unit := "GB"
    unitMultiplier := 1
    monthlyQuantity := storageGB
    productFilter := some (r.sqlProductFilter
      [ { key := "productName", valueRegex := some ("/SQL Database " ++ sn ++ " - Storage/i") }
      , { key := "skuName", valueRegex := some ("/^" ++ sn ++ "$/i") }
      , { key := "meterName", value := some "Data Stored" } ])
    priceFilter := some priceFilterConsumption }

/-- `MSSQLDatabase.dtuPurchaseCostComponents`: the DTU compute component,
the extra-data-storage component for non-basic SKUs, and long-term
retention. -/
def MSSQLDatabase.dtuPurchaseCostComponents (r : MSSQLDatabase) : List CostComponent :=
  let skuName := goToLower r.SKU
  let skuName := if skuName = "basic" then "b" else skuName
  let l : List CostComponent := [r.dtuComputeCostComponent skuName]
  let l := if skuName ≠ "b" then l ++ [r.extraDataStorageCostComponent skuName] else l
  l ++ [r.longTermRetentionMSSQLCostComponent]

/-- `MSSQLDatabase.BuildResource`: DTU components for `basic`/`s…`/`p…`
SKUs, vCore components otherwise, plus the declared usage schema with its
integer defaults. -/
def MSSQLDatabase.BuildResource (r : MSSQLDatabase) : Resource :=
  let sku := goToLower r.SKU
  let costComponents :=
    if sku = "basic" ∨ goHasPrefix sku "s" ∨ goHasPrefix sku "p" then
      r.dtuPurchaseCostComponents
    else
      r.vCorePurchaseCostComponents
  { name := r.Address
    usageSchema :=
      [ { key := "extra_data_storage_gb", defaultValue := 0 }
      , { key := "monthly_vcore_hours", defaultValue := 0 }
      , { key := "long_term_retention_storage_gb", defaultValue := 0 } ]
    costComponents := costComponents }

/-! ### The terraform provider constructor (`NewAzureRMMSSQLDatabase` and
`parseMSSQLSku`) -/

/-- The attribute view the constructor reads from one
`azurerm_mssql_database` plan node (`schema.ResourceData`): `none` models
a null / absent gjson attribute.  `region` stands for the result of the
external `lookupRegion(d, ["server_id"])` helper, which is outside the
given sources. -/
structure ResourceData where
  address : String := ""
  region : String := ""
  skuName : Option String := none
  maxSizeGB : Option Int := none
  readReplicaCount : Option Int := none
  licenseType : Option String := none
  zoneRedundant : Bool := false
deriving Repr, DecidableEq

/-- `skuConfig`: the parsed tier / family / core-count of a vCore SKU. -/
structure skuConfig where
  tier : String
  family : String
  cores : Int
deriving Repr, DecidableEq

/-- The tier-key table of `parseMSSQLSku`. -/
def mssqlTierOfKey (k : String) : Option String :=
  if k = "GP" then some "General Purpose"
  else if k = "GP_S" then some "General Purpose - Serverless"
  else if k = "HS" then some "Hyperscale"
  else if k = "BC" then some "Business Critical"
  else none

/-- The family-key table of `parseMSSQLSku`. -/
def mssqlFamilyOfKey (k : String) : Option String :=
  if k = "Gen5" then some "Compute Gen5"
  else if k = "Gen4" then some "Compute Gen4"
  else if k = "M" then some "Compute M Series"
  else none

/-- `parseMSSQLSku`: split the SKU on `_`; all but the last two segments
joined again form the tier key, then the family segment, then the integer
core count; every failure is an error whose message names the resource
address. -/
def parseMSSQLSku (address sku : String) : Except String skuConfig :=
  let s := goSplitUnderscore sku
  if s.length < 3 then
    .error ("Unrecognized MSSQL SKU format for resource " ++ address ++ ": " ++ sku)
  else
    let tierKey := goJoinUnderscore (s.take (s.length - 2))
    match mssqlTierOfKey tierKey with
    | none => .error ("Invalid tier in MSSQL SKU for resource " ++ address ++ ": " ++ sku)
    | some tier =>
      let familyKey := s.getD (s.length - 2) ""
      match mssqlFamilyOfKey familyKey with
      | none => .error ("Invalid family in MSSQL SKU for resource " ++ address ++ ": " ++ sku)
      | some family =>
        match goParseInt64 (s.getD (s.length - 1) "") with
        | none => .error ("Invalid core count in MSSQL SKU for resource " ++ address ++ ": " ++ sku)
        | some cores => .ok { tier := tier, family := family, cores := cores }

/-- Looking a usage key up in one resource's raw usage data. -/
def getUsageInt (kvs : List (String × Int)) (k : String) : Option Int :=
  (kvs.find? (fun p => p.1 = k)).map (fun p => p.2)

/-- Modelled from the spec: `resources.PopulateArgsWithUsage` is not among
the given sources.  Per the builder contract (section 4.2) a builder
receives the raw usage entry matching the node's address and copies the
values present there into the fields tagged `infracost_usage`; a key
absent from the usage data leaves its field untouched, and nil usage data
(no usage supplied for the address) leaves the resource unchanged.  The
schema defaults declared by `BuildResource` belong to the resolution and
templating view of the Usage Schema Engine (section 4.3), not to this
copy: they are declared on the built resource only after this call runs. -/
def populateUsage (r : MSSQLDatabase) (u : UsageData) : MSSQLDatabase :=
  match u with
  | none => r
  | some kvs =>
    { r with
      ExtraDataStorageGB := (getUsageInt kvs "extra_data_storage_gb").orElse (fun _ => r.ExtraDataStorageGB)
      MonthlyVCoreHours := (getUsageInt kvs "monthly_vcore_hours").orElse (fun _ => r.MonthlyVCoreHours)
      LongTermRetentionStorageGB :=
        (getUsageInt kvs "long_term_retention_storage_gb").orElse (fun _ => r.LongTermRetentionStorageGB) }

/-- The `azure.MSSQLDatabase` value `NewAzureRMMSSQLDatabase` assembles
from the plan attributes before SKU parsing: the licence type defaults to
`LicenseIncluded` whenever the `license_type` attribute is absent. -/
def initialMSSQLDatabase (d : ResourceData) : MSSQLDatabase :=
  { Address := d.address
    Region := d.region
    SKU := d.skuName.getD ""
    LicenceType := d.licenseType.getD "LicenseIncluded"
    MaxSizeGB := d.maxSizeGB
    ReadReplicaCount := d.readReplicaCount
    ZoneRedundant := d.zoneRedundant }

/-- `NewAzureRMMSSQLDatabase`: for SKUs that are neither `basic` nor
`s…`/`p…` (lower-cased), the SKU is parsed; a parse failure is logged as a
warning and the builder returns `none` (the resource is skipped, the run
continues).  Otherwise usage is populated and the resource built. -/
def NewAzureRMMSSQLDatabase (d : ResourceData) (u : UsageData) : Option Resource :=
  let sku := d.skuName.getD ""
  let skuLower := goToLower sku
  let r := initialMSSQLDatabase d
  if skuLower ≠ "basic" ∧ ¬goHasPrefix skuLower "s" ∧ ¬goHasPrefix skuLower "p" then
    match parseMSSQLSku d.address sku with
    | .error _ => none
    | .ok c =>
      let r := { r with Tier := c.tier, Family := c.family, Cores := c.cores }
      some ((populateUsage r u).BuildResource)
  else
    some ((populateUsage r u).BuildResource)

/-! ### The duplicated `azure.SQLDatabase` implementation

The repository carries a second, near-identical implementation of the same
resource under the name `SQLDatabase`, whose `Cores` field is a nil-able
pointer and whose purchase-option dispatch tests `Cores != nil` instead of
the SKU prefix.  Its component constructors dereference `*r.Cores`, which
is well-defined only on the vCore path where the caller guarantees a
non-nil `Cores`; the dereference is modelled as `Option.getD 0`. -/

/-- `azure.SQLDatabase`. -/
structure SQLDatabase where
  Address : String := ""
  Region : String := ""
  SKU : String := ""
  LicenceType : String := ""
  Tier : String := ""
  Family : String := ""
  Cores : Option Int := none
  MaxSizeGB : Option Int := none
  ReadReplicaCount : Option Int := none
  ZoneRedundant : Bool := false
  ExtraDataStorageGB : Option Int := none
  MonthlyVCoreHours : Option Int := none
  LongTermRetentionStorageGB : Option Int := none
deriving Repr, DecidableEq

/-- The `MSSQLDatabase` view of a `SQLDatabase` with its `Cores` pointer
dereferenced; the two implementations produce identical components under
this correspondence. -/
def SQLDatabase.toMSSQL (r : SQLDatabase) : MSSQLDatabase :=
  { Address := r.Address
    Region := r.Region
    SKU := r.SKU
    LicenceType := r.LicenceType
    Tier := r.Tier
    Family := r.Family
    Cores := r.Cores.getD 0
    MaxSizeGB := r.MaxSizeGB
    ReadReplicaCount := r.ReadReplicaCount
    ZoneRedundant := r.ZoneRedundant
    ExtraDataStorageGB := r.ExtraDataStorageGB
    MonthlyVCoreHours := r.MonthlyVCoreHours
    LongTermRetentionStorageGB := r.LongTermRetentionStorageGB }

/-- `SQLDatabase.mssqlSkuName`. -/
def SQLDatabase.mssqlSkuName (r : SQLDatabase) (cores : Int) : String :=
  let sku := toString cores ++ " vCore"
  if r.ZoneRedundant then sku ++ " Zone Redundancy" else sku

/-- `SQLDatabase.productFilter` (the helper of the duplicated file). -/
def SQLDatabase.productFilter (r : SQLDatabase) (filters : List AttributeFilter) : ProductFilter :=
  { vendorName := some vendorName
    region := some r.Region
    service := some sqlServiceName
    productFamily := some sqlProductFamily
    attributeFilters := filters }

/-- `SQLDatabase.provisionedComputeCostComponent` (dereferences `*r.Cores`). -/
def SQLDatabase.provisionedComputeCostComponent (r : SQLDatabase) : CostComponent :=
  let skuName := r.mssqlSkuName (r.Cores.getD 0)
  let productNameRegex := "/" ++ r.Tier ++ " - " ++ r.Family ++ "/"
  { name := "Compute (provisioned, " ++ r.SKU ++ ")"
    unit := "hours"
    unitMultiplier := 1
    hourlyQuantity := some 1
    productFilter := some (r.productFilter
      [ { key := "productName", valueRegex := some productNameRegex }
      , { key := "skuName", value := some skuName } ])
    priceFilter := some priceFilterConsumption }

/-- `SQLDatabase.readReplicaCostComponent`. -/
def SQLDatabase.readReplicaCostComponent (r : SQLDatabase) : CostComponent :=
  let productNameRegex := "/" ++ r.Tier ++ " - " ++ r.Family ++ "/"
  let skuName := r.mssqlSkuName (r.Cores.getD 0)
  { name := "Read replicas"
    unit := "hours"
    unitMultiplier := 1
    hourlyQuantity := r.ReadReplicaCount
    productFilter := some (r.productFilter
      [ { key := "productName", valueRegex := some productNameRegex }
      , { key := "skuName", value := some skuName } ])
    priceFilter := some priceFilterConsumption }

/-- `SQLDatabase.serverlessComputeHoursCostComponent`. -/
def SQLDatabase.serverlessComputeHoursCostComponent (r : SQLDatabase) : CostComponent :=
  let productNameRegex := "/" ++ r.Tier ++ " - " ++ r.Family ++ "/"
  let serverlessSkuName := r.mssqlSkuName 1
  { name := "Compute (serverless, " ++ r.SKU ++ ")"
    unit := "vCore-hours"
    unitMultiplier := 1
    monthlyQuantity := r.MonthlyVCoreHours
    productFilter := some (r.productFilter
      [ { key := "productName", valueRegex := some productNameRegex }
      , { key := "skuName", value := some serverlessSkuName } ])
    priceFilter := some priceFilterConsumption }

/-- `SQLDatabase.sqlLicenseCostComponent` (same licence-region chain). -/
def SQLDatabase.sqlLicenseCostComponent (r : SQLDatabase) : CostComponent :=
  { name := "SQL license"
    unit := "vCore-hours"
    unitMultiplier := 1
    hourlyQuantity := some (r.Cores.getD 0)
    productFilter := some
      { vendorName := some vendorName
        region := some (mssqlLicenseRegion r.Region)
        service := some sqlServiceName
        productFamily := some sqlProductFamily
        attributeFilters :=
          [ { key := "productName", valueRegex := some ("/" ++ r.Tier ++ " - " ++ "SQL License" ++ "/") } ] }
    priceFilter := some priceFilterConsumption }

/-- `SQLDatabase.mssqlStorageComponent`. -/
def SQLDatabase.mssqlStorageComponent (r : SQLDatabase) : CostComponent :=
  let storageGB := match r.MaxSizeGB with
    | some m => m
    | none => 5
  let storageTier := if goToLower r.Tier = "general purpose - serverless" then "General Purpose" else r.Tier
  let skuName := if r.ZoneRedundant then storageTier ++ " Zone Redundancy" else storageTier
  let productNameRegex := "/" ++ storageTier ++ " - Storage/"
  { name := "Storage"
    unit := "GB"
    unitMultiplier := 1
    monthlyQuantity := some storageGB
    productFilter := some (r.productFilter
      [ { key := "productName", valueRegex := some productNameRegex }
      , { key := "skuName", value := some skuName }
      , { key := "meterName", valueRegex := some "/^Data Stored/" } ]) }

/-- `SQLDatabase.longTermRetentionMSSQLCostComponent`. -/
def SQLDatabase.longTermRetentionMSSQLCostComponent (r : SQLDatabase) : CostComponent :=
  { name := "Long-term retention"
    unit := "GB"
    unitMultiplier := 1
    monthlyQuantity := r.LongTermRetentionStorageGB
    productFilter := some (r.productFilter
      [ { key := "productName", value := some "SQL Database - LTR Backup Storage" }
      , { key := "skuName", value := some "Backup RA-GRS" }
      , { key := "meterName", value := some "RA-GRS Data Stored" } ])
    priceFilter := some priceFilterConsumption }

/-- `SQLDatabase.vCorePurchaseCostComponents` (same append order as the
`MSSQLDatabase` version). -/
def SQLDatabase.vCorePurchaseCostComponents (r : SQLDatabase) : List CostComponent :=
  let l : List CostComponent :=
    if goToLower r.Tier = sqlServerlessTier then [r.serverlessComputeHoursCostComponent]
    else [r.provisionedComputeCostComponent]
  let l := if goToLower r.Tier = sqlHyperscaleTier then l ++ [r.readReplicaCostComponent] else l
  let l :=
    if goToLower r.Tier ≠ sqlServerlessTier ∧ goToLower r.LicenceType = "licenseincluded" then
      l ++ [r.sqlLicenseCostComponent]
    else l
  let l := l ++ [r.mssqlStorageComponent]
  if goToLower r.Tier ≠ sqlHyperscaleTier then l ++ [r.longTermRetentionMSSQLCostComponent] else l

/-- `SQLDatabase.extraDataStorageCostComponent`: the tier name comes from
the first character of the lower-cased SKU via `tierMapping`. -/
def SQLDatabase.extraDataStorageCostComponent (r : SQLDatabase) : CostComponent :=
  let sn := tierMapping (goTake1 (goToLower r.SKU))
  let storageGB : Option Int :=
    match r.MaxSizeGB with
    | none => none
    | some m =>
      let g := m - (if goToLower sn = "premium" then 500 else 250)
      if g < 0 then none else some g
  let storageGB : Option Int :=
    match r.ExtraDataStorageGB with
    | some e => some e
    | none => storageGB
  { name := "Extra data storage"
    unit := "GB"
    unitMultiplier := 1
    monthlyQuantity := storageGB
    productFilter := some (r.productFilter
      [ { key := "productName", valueRegex := some ("/SQL Database " ++ sn ++ " - Storage/i") }
      , { key := "skuName", valueRegex := some ("/^" ++ sn ++ "$/i") }
      , { key := "meterName", value := some "Data Stored" } ])
    priceFilter := some priceFilterConsumption }

/-- `SQLDatabase.dtuPurchaseCostComponents`. -/
def SQLDatabase.dtuPurchaseCostComponents (r : SQLDatabase) : List CostComponent :=
  let skuName := goToLower r.SKU
  let skuName := if skuName = "basic" then "b" else skuName
  let l : List CostComponent :=
    [ { name := "Compute (" ++ goToTitle r.SKU ++ ")"
        unit := "days"
        unitMultiplier := 1
        monthlyQuantity := some 30
        productFilter := some (r.productFilter
          [ { key := "productName", valueRegex := some "/^SQL Database Single/i" }
          , { key := "skuName", valueRegex := some ("/^" ++ skuName ++ "$/i") } ])
        priceFilter := some priceFilterConsumption } ]
  let l := if skuName ≠ "b" then l ++ [r.extraDataStorageCostComponent] else l
  l ++ [r.longTermRetentionMSSQLCostComponent]

/-- `SQLDatabase.costComponents`: vCore components exactly when the
`Cores` pointer is non-nil. -/
def SQLDatabase.costComponents (r : SQLDatabase) : List CostComponent :=
  match r.Cores with
  | some _ => r.vCorePurchaseCostComponents
  | none => r.dtuPurchaseCostComponents

/-- `SQLDatabase.BuildResource`. -/
def SQLDatabase.BuildResource (r : SQLDatabase) : Resource :=
  { name := r.Address
    usageSchema :=
      [ { key := "extra_data_storage_gb", defaultValue := 0 }
      , { key := "monthly_vcore_hours", defaultValue := 0 }
      , { key := "long_term_retention_storage_gb", defaultValue := 0 } ]
    costComponents := r.costComponents }

/-- The two implementations emit identical vCore component lists under the
`toMSSQL` correspondence. -/
theorem SQLDatabase.vCore_toMSSQL (r : SQLDatabase) :
    r.vCorePurchaseCostComponents = r.toMSSQL.vCorePurchaseCostComponents := rfl

/-- The two implementations emit the identical SQL-licence component. -/
theorem SQLDatabase.license_toMSSQL (r : SQLDatabase) :
    r.sqlLicenseCostComponent = r.toMSSQL.sqlLicenseCostComponent := rfl

/-- The two implementations emit the identical extra-data-storage
component; the `MSSQLDatabase` version receives the lower-cased SKU the
duplicated version recomputes. -/
theorem SQLDatabase.extraStorage_toMSSQL (r : SQLDatabase) :
    r.extraDataStorageCostComponent = r.toMSSQL.extraDataStorageCostComponent (goToLower r.SKU) := rfl

/-! ### Usage Schema Engine (modelled)

The usage-resolution and usage-file-sync implementation is not among the
given sources (only its golden test output is), so it is modelled from the
specification. -/

/-- A concrete resource address: base (type.name, module prefix included)
plus the optional count / for_each index; concrete addresses never carry a
wildcard. -/
structure Address where
  base : String
  index : Option String := none
deriving Repr, DecidableEq

/-- Modelled from the spec: a usage-specification key is either a concrete
address or a wildcard template `base[*]`, which only usage-specification
keys may carry (section 3, ResourceAddress). -/
inductive UsagePattern where
  | addr (base : String) (index : Option String)
  | wild (base : String)
deriving Repr, DecidableEq

/-- Modelled from the spec: a UsageSpec maps resource-address patterns to
usage key-value entries (section 3); values are the integer usage
parameters the MSSQL schema declares. -/
def UsageSpec : Type := List (UsagePattern × List (String × Int))

/-- The values attached to the first entry of the spec matching a
pattern. -/
def findPatternVals (spec : UsageSpec) (p : UsagePattern) : Option (List (String × Int)) :=
  (spec.find? (fun e => e.1 = p)).map (fun e => e.2)

/-- The explicit value of `key` for the exact address `a`, when the spec
carries one. -/
def exactVal (spec : UsageSpec) (a : Address) (key : String) : Option Int :=
  (findPatternVals spec (.addr a.base a.index)).bind (fun kvs => getUsageInt kvs key)

/-- The explicit value of `key` under a wildcard `base[*]` entry; a
wildcard applies only to indexed addresses of that base. -/
def wildVal (spec : UsageSpec) (a : Address) (key : String) : Option Int :=
  match a.index with
  | some _ => (findPatternVals spec (.wild a.base)).bind (fun kvs => getUsageInt kvs key)
  | none => none

/-- Modelled from the spec: the Usage Schema Engine resolves one declared
usage key with the precedence (1) exact address match, (2) wildcard
`base[*]` entry matching any index of that base, (3) declared default
(section 4.3). -/
def resolveKey (spec : UsageSpec) (a : Address) (key : String) (dflt : Int) : Int :=
  match exactVal spec a key with
  | some v => v
  | none =>
    match wildVal spec a key with
    | some v => v
    | none => dflt

/-- Modelled from the spec: the engine produces a value for every key of
the resource's declared usage schema (section 4.3). -/
def resolveUsage (spec : UsageSpec) (a : Address) (schema : List UsageItem) : List (String × Int) :=
  schema.map (fun it => (it.key, resolveKey spec a it.key it.defaultValue))

/-! ### Cost Aggregator (modelled) -/

/-- Modelled from the spec: hours per month used to normalise hourly
quantities (section 4.5; the source comments call it the `730h/month`
value). -/
def hoursPerMonth : Int := 730

/-- Modelled from the spec: the Cost Aggregator computes
`quantity x unit price x unit multiplier` per component, normalising
hourly quantities to a month, in exact (non-floating) arithmetic; a
component lacking a quantity contributes zero while staying in the result
(sections 4.5 and 3). -/
def componentCost (c : CostComponent) (unitPrice : ℚ) : ℚ :=
  match c.hourlyQuantity with
  | some h => (h * hoursPerMonth : Int) * unitPrice * c.unitMultiplier
  | none =>
    match c.monthlyQuantity with
    | some m => (m : ℚ) * unitPrice * c.unitMultiplier
    | none => 0

/-- Modelled from the spec: a resource's cost is the sum of its
components' costs under a per-component price assignment (section 4.5). -/
def resourceCost (res : Resource) (price : CostComponent → ℚ) : ℚ :=
  (res.costComponents.map (fun c => componentCost c (price c))).sum

/-! ### Usage-file sync (modelled) -/

/-- Modelled from the spec: one data entry of the human-editable usage
file, carrying its hand-written end-of-line comment as presentation
metadata distinct from the data value (section 9, comment-preserving
document merge). -/
structure UsageFileEntry where
  key : String
  value : Int
  comment : Option String := none
deriving Repr, DecidableEq

/-- The comment attached to `key` in a usage-file document. -/
def entryComment (doc : List UsageFileEntry) (key : String) : Option String :=
  (doc.find? (fun e => e.key = key)).bind (fun e => e.comment)

/-- The value attached to `key` in a usage-file document. -/
def entryValue (doc : List UsageFileEntry) (key : String) : Option Int :=
  (doc.find? (fun e => e.key = key)).map (fun e => e.value)

/-- Modelled from the spec: regenerating the usage file emits every key of
the fresh template with its (updated or added) data value while re-
attaching the free-form comment the prior document carried for that key
(sections 4.3 and 6, comment-preserving merge). -/
def syncUsageFile (old : List UsageFileEntry) (fresh : List (String × Int)) : List UsageFileEntry :=
  fresh.map (fun kv => { key := kv.1, value := kv.2, comment := entryComment old kv.1 })

/-! ### Helper lemmas -/

/-- A component with this name occurs in the list. -/
@[reducible] def hasComponentNamed (l : List CostComponent) (n : String) : Prop :=
  ∃ c ∈ l, c.name = n

theorem append3_ne_of_lt (a s b t : String) (h : t.length < a.length + b.length) :
    a ++ s ++ b ≠ t := by
  intro e
  have hl := congrArg String.length e
  rw [String.length_append, String.length_append] at hl
  omega

@[simp] theorem provName_ne_license (s : String) :
    ¬("Compute (provisioned, " ++ s ++ ")" = "SQL license") :=
  append3_ne_of_lt _ s _ _ (by decide)

@[simp] theorem provName_ne_replicas (s : String) :
    ¬("Compute (provisioned, " ++ s ++ ")" = "Read replicas") :=
  append3_ne_of_lt _ s _ _ (by decide)

@[simp] theorem provName_ne_retention (s : String) :
    ¬("Compute (provisioned, " ++ s ++ ")" = "Long-term retention") :=
  append3_ne_of_lt _ s _ _ (by decide)

@[simp] theorem provName_ne_storage (s : String) :
    ¬("Compute (provisioned, " ++ s ++ ")" = "Storage") :=
  append3_ne_of_lt _ s _ _ (by decide)

@[simp] theorem servName_ne_license (s : String) :
    ¬("Compute (serverless, " ++ s ++ ")" = "SQL license") :=
  append3_ne_of_lt _ s _ _ (by decide)

@[simp] theorem servName_ne_replicas (s : String) :
    ¬("Compute (serverless, " ++ s ++ ")" = "Read replicas") :=
  append3_ne_of_lt _ s _ _ (by decide)

@[simp] theorem servName_ne_retention (s : String) :
    ¬("Compute (serverless, " ++ s ++ ")" = "Long-term retention") :=
  append3_ne_of_lt _ s _ _ (by decide)

@[simp] theorem servName_ne_storage (s : String) :
    ¬("Compute (serverless, " ++ s ++ ")" = "Storage") :=
  append3_ne_of_lt _ s _ _ (by decide)

/-- A provisioned-compute name never coincides with the serverless-compute
name built from the same SKU: their literal prefixes differ in length. -/
@[simp] theorem provName_ne_servName (s : String) :
    ¬("Compute (provisioned, " ++ s ++ ")" = "Compute (serverless, " ++ s ++ ")") := by
  intro e
  have hl := congrArg String.length e
  rw [String.length_append, String.length_append, String.length_append,
    String.length_append] at hl
  have h1 : ("Compute (provisioned, ").length = 22 := rfl
  have h2 : ("Compute (serverless, ").length = 21 := rfl
  omega

@[simp] theorem license_ne_servName (s : String) :
    ¬("SQL license" = "Compute (serverless, " ++ s ++ ")") :=
  fun e => servName_ne_license s e.symm

@[simp] theorem replicas_ne_servName (s : String) :
    ¬("Read replicas" = "Compute (serverless, " ++ s ++ ")") :=
  fun e => servName_ne_replicas s e.symm

@[simp] theorem retention_ne_servName (s : String) :
    ¬("Long-term retention" = "Compute (serverless, " ++ s ++ ")") :=
  fun e => servName_ne_retention s e.symm

@[simp] theorem storage_ne_servName (s : String) :
    ¬("Storage" = "Compute (serverless, " ++ s ++ ")") :=
  fun e => servName_ne_storage s e.symm

/-- Shape of the vCore component list on the serverless tier: exactly the
serverless compute component followed by the two storage components. -/
theorem vCore_serverless_shape (r : MSSQLDatabase) (h : goToLower r.Tier = sqlServerlessTier) :
    r.vCorePurchaseCostComponents =
      [r.serverlessComputeHoursCostComponent, r.mssqlStorageComponent,
        r.longTermRetentionMSSQLCostComponent] := by
  unfold MSSQLDatabase.vCorePurchaseCostComponents
  simp [h, sqlServerlessTier, sqlHyperscaleTier]

/-- The storage component is in every vCore component list. -/
theorem storage_mem_vCore (r : MSSQLDatabase) :
    r.mssqlStorageComponent ∈ r.vCorePurchaseCostComponents := by
  unfold MSSQLDatabase.vCorePurchaseCostComponents
  split_ifs <;> simp

/-- The long-term-retention component is in the vCore component list of
every non-Hyperscale tier. -/
theorem ltr_mem_vCore (r : MSSQLDatabase) (h : goToLower r.Tier ≠ sqlHyperscaleTier) :
    r.longTermRetentionMSSQLCostComponent ∈ r.vCorePurchaseCostComponents := by
  unfold MSSQLDatabase.vCorePurchaseCostComponents
  split_ifs <;> simp_all

/-- The provisioned compute component is in the vCore component list of
every non-serverless tier. -/
theorem provisioned_mem_vCore (r : MSSQLDatabase) (h : goToLower r.Tier ≠ sqlServerlessTier) :
    r.provisionedComputeCostComponent ∈ r.vCorePurchaseCostComponents := by
  unfold MSSQLDatabase.vCorePurchaseCostComponents
  split_ifs <;> simp_all

/-- The SQL-licence component occurs in the vCore list exactly when the
licence type is `licenseincluded` (case-insensitively) and the tier is not
serverless. -/
theorem license_iff_vCore (r : MSSQLDatabase) :
    hasComponentNamed r.vCorePurchaseCostComponents "SQL license" ↔
      goToLower r.LicenceType = "licenseincluded" ∧ goToLower r.Tier ≠ sqlServerlessTier := by
  by_cases hs : goToLower r.Tier = "general purpose - serverless"
  · have hh : goToLower r.Tier ≠ "hyperscale" := by
      rw [hs]; decide
    by_cases hl : goToLower r.LicenceType = "licenseincluded" <;>
      simp [MSSQLDatabase.vCorePurchaseCostComponents, hasComponentNamed, hs, hh, hl,
        sqlServerlessTier, sqlHyperscaleTier,
        MSSQLDatabase.serverlessComputeHoursCostComponent,
        MSSQLDatabase.provisionedComputeCostComponent, MSSQLDatabase.readReplicaCostComponent,
        MSSQLDatabase.sqlLicenseCostComponent, MSSQLDatabase.mssqlStorageComponent,
        MSSQLDatabase.longTermRetentionMSSQLCostComponent]
  · by_cases hh : goToLower r.Tier = "hyperscale" <;>
      by_cases hl : goToLower r.LicenceType = "licenseincluded" <;>
        simp [MSSQLDatabase.vCorePurchaseCostComponents, hasComponentNamed, hs, hh, hl,
        sqlServerlessTier, sqlHyperscaleTier,
          MSSQLDatabase.serverlessComputeHoursCostComponent,
          MSSQLDatabase.provisionedComputeCostComponent, MSSQLDatabase.readReplicaCostComponent,
          MSSQLDatabase.sqlLicenseCostComponent, MSSQLDatabase.mssqlStorageComponent,
          MSSQLDatabase.longTermRetentionMSSQLCostComponent]

/-- The read-replica component occurs in the vCore list exactly on the
Hyperscale tier. -/
theorem replicas_iff_vCore (r : MSSQLDatabase) :
    hasComponentNamed r.vCorePurchaseCostComponents "Read replicas" ↔
      goToLower r.Tier = sqlHyperscaleTier := by
  by_cases hs : goToLower r.Tier = "general purpose - serverless"
  · have hh : goToLower r.Tier ≠ "hyperscale" := by
      rw [hs]; decide
    simp [MSSQLDatabase.vCorePurchaseCostComponents, hasComponentNamed, hs, hh,
      sqlServerlessTier, sqlHyperscaleTier, MSSQLDatabase.serverlessComputeHoursCostComponent,
      MSSQLDatabase.provisionedComputeCostComponent, MSSQLDatabase.readReplicaCostComponent,
      MSSQLDatabase.sqlLicenseCostComponent, MSSQLDatabase.mssqlStorageComponent,
      MSSQLDatabase.longTermRetentionMSSQLCostComponent]
  · by_cases hh : goToLower r.Tier = "hyperscale" <;>
      by_cases hl : goToLower r.LicenceType = "licenseincluded" <;>
        simp [MSSQLDatabase.vCorePurchaseCostComponents, hasComponentNamed, hs, hh, hl,
        sqlServerlessTier, sqlHyperscaleTier,
          MSSQLDatabase.serverlessComputeHoursCostComponent,
          MSSQLDatabase.provisionedComputeCostComponent, MSSQLDatabase.readReplicaCostComponent,
          MSSQLDatabase.sqlLicenseCostComponent, MSSQLDatabase.mssqlStorageComponent,
          MSSQLDatabase.longTermRetentionMSSQLCostComponent]

/-- The long-term-retention component occurs in the vCore list exactly on
non-Hyperscale tiers. -/
theorem retention_iff_vCore (r : MSSQLDatabase) :
    hasComponentNamed r.vCorePurchaseCostComponents "Long-term retention" ↔
      goToLower r.Tier ≠ sqlHyperscaleTier := by
  by_cases hs : goToLower r.Tier = "general purpose - serverless"
  · have hh : goToLower r.Tier ≠ "hyperscale" := by
      rw [hs]; decide
    simp [MSSQLDatabase.vCorePurchaseCostComponents, hasComponentNamed, hs, hh,
      sqlServerlessTier, sqlHyperscaleTier, MSSQLDatabase.serverlessComputeHoursCostComponent,
      MSSQLDatabase.provisionedComputeCostComponent, MSSQLDatabase.readReplicaCostComponent,
      MSSQLDatabase.sqlLicenseCostComponent, MSSQLDatabase.mssqlStorageComponent,
      MSSQLDatabase.longTermRetentionMSSQLCostComponent]
  · by_cases hh : goToLower r.Tier = "hyperscale" <;>
      by_cases hl : goToLower r.LicenceType = "licenseincluded" <;>
        simp [MSSQLDatabase.vCorePurchaseCostComponents, hasComponentNamed, hs, hh, hl,
        sqlServerlessTier, sqlHyperscaleTier,
          MSSQLDatabase.serverlessComputeHoursCostComponent,
          MSSQLDatabase.provisionedComputeCostComponent, MSSQLDatabase.readReplicaCostComponent,
          MSSQLDatabase.sqlLicenseCostComponent, MSSQLDatabase.mssqlStorageComponent,
          MSSQLDatabase.longTermRetentionMSSQLCostComponent]

/-- No component of a non-serverless vCore list carries a serverless
compute name. -/
theorem no_serverless_name_vCore (r : MSSQLDatabase) (h : goToLower r.Tier ≠ sqlServerlessTier) :
    ∀ c ∈ r.vCorePurchaseCostComponents, c.name ≠ "Compute (serverless, " ++ r.SKU ++ ")" := by
  rw [sqlServerlessTier] at h
  by_cases hh : goToLower r.Tier = "hyperscale" <;>
    by_cases hl : goToLower r.LicenceType = "licenseincluded" <;>
      simp [MSSQLDatabase.vCorePurchaseCostComponents, h, hh, hl,
        sqlServerlessTier, sqlHyperscaleTier, MSSQLDatabase.serverlessComputeHoursCostComponent,
        MSSQLDatabase.provisionedComputeCostComponent, MSSQLDatabase.readReplicaCostComponent,
        MSSQLDatabase.sqlLicenseCostComponent, MSSQLDatabase.mssqlStorageComponent,
        MSSQLDatabase.longTermRetentionMSSQLCostComponent]

/-- A string with prefix `s` or `p` (lower-cased) is neither `b` nor
`basic`. -/
theorem ne_b_of_sp (l : String) (h : goHasPrefix l "s" = true ∨ goHasPrefix l "p" = true) :
    l ≠ "b" := by
  intro e
  subst e
  rcases h with h | h <;> exact absurd h (by decide)

/-- Shape of the DTU component list for a non-basic SKU: compute, extra
data storage, long-term retention. -/
theorem dtu_shape (r : MSSQLDatabase) (h : goToLower r.SKU ≠ "basic")
    (h2 : goToLower r.SKU ≠ "b") :
    r.dtuPurchaseCostComponents =
      [r.dtuComputeCostComponent (goToLower r.SKU),
        r.extraDataStorageCostComponent (goToLower r.SKU),
        r.longTermRetentionMSSQLCostComponent] := by
  unfold MSSQLDatabase.dtuPurchaseCostComponents
  simp [h, h2]

/-- A string starting with `p` has `p` as its one-character prefix. -/
theorem goTake1_eq_p (l : String) (h : goHasPrefix l "p" = true) : goTake1 l = "p" := by
  unfold goHasPrefix at h
  unfold goTake1
  cases hd : l.data with
  | nil => rw [hd] at h; exact absurd h (by decide)
  | cons a as =>
    rw [hd] at h
    have ha : a = 'p' := by
      have hb : ('p' == a) = true := by
        by_cases hpa : 'p' == a
        · exact hpa
        · rw [show ("p").data = ['p'] from rfl] at h
          rw [List.isPrefixOf] at h
          simp [hpa] at h
      exact (beq_iff_eq.mp hb).symm
    rw [ha]
    rfl

/-- A string starting with `s` has `s` as its one-character prefix. -/
theorem goTake1_eq_s (l : String) (h : goHasPrefix l "s" = true) : goTake1 l = "s" := by
  unfold goHasPrefix at h
  unfold goTake1
  cases hd : l.data with
  | nil => rw [hd] at h; exact absurd h (by decide)
  | cons a as =>
    rw [hd] at h
    have ha : a = 's' := by
      have hb : ('s' == a) = true := by
        by_cases hpa : 's' == a
        · exact hpa
        · rw [show ("s").data = ['s'] from rfl] at h
          rw [List.isPrefixOf] at h
          simp [hpa] at h
      exact (beq_iff_eq.mp hb).symm
    rw [ha]
    rfl

/-- The monthly quantity of the extra-data-storage component, as computed
by the source. -/
theorem extraStorage_quantity (r : MSSQLDatabase) (skuName : String) :
    (r.extraDataStorageCostComponent skuName).monthlyQuantity =
      match r.ExtraDataStorageGB with
      | some e => some e
      | none =>
        match r.MaxSizeGB with
        | none => none
        | some m =>
          let g := m - (if goToLower (tierMapping (goTake1 skuName)) = "premium" then 500 else 250)
          if g < 0 then none else some g := by
  unfold MSSQLDatabase.extraDataStorageCostComponent
  cases r.ExtraDataStorageGB <;> cases r.MaxSizeGB <;> rfl

/-- `goContainsList` finds a block that literally occurs in the middle of
a list. -/
theorem goContainsList_append (a sub b : List Char) :
    goContainsList (a ++ sub ++ b) sub = true := by
  induction a with
  | nil =>
    cases sub with
    | nil =>
      cases hb : ([] : List Char) ++ [] ++ b with
      | nil => simp [goContainsList]
      | cons x xs => simp [goContainsList]
    | cons c cs =>
      show goContainsList ((c :: cs) ++ b) (c :: cs) = true
      have hpre : (c :: cs).isPrefixOf ((c :: cs) ++ b) = true :=
        List.isPrefixOf_iff_prefix.mpr (List.prefix_append _ _)
      unfold goContainsList
      rw [hpre]
      simp
  | cons x xs ih =>
    show goContainsList (x :: (xs ++ sub ++ b)) sub = true
    unfold goContainsList
    rw [ih]
    simp

/-- `goContains` finds a block that literally occurs in the middle of a
string. -/
theorem goContains_append (a sub b : String) : goContains (a ++ sub ++ b) sub = true := by
  unfold goContains
  rw [String.data_append, String.data_append]
  exact goContainsList_append a.data sub.data b.data

/-- Populating from nil usage data leaves the resource unchanged. -/
theorem populateUsage_none (r : MSSQLDatabase) : populateUsage r none = r := rfl

/-- Exact-address precedence of the modelled usage resolution. -/
theorem resolveKey_exact (spec : UsageSpec) (a : Address) (key : String) (dflt v : Int)
    (h : exactVal spec a key = some v) : resolveKey spec a key dflt = v := by
  unfold resolveKey
  rw [h]

/-- Wildcard fallback of the modelled usage resolution. -/
theorem resolveKey_wild (spec : UsageSpec) (a : Address) (key : String) (dflt v : Int)
    (h : exactVal spec a key = none) (h2 : wildVal spec a key = some v) :
    resolveKey spec a key dflt = v := by
  unfold resolveKey
  rw [h, h2]

/-- Default fallback of the modelled usage resolution. -/
theorem resolveKey_default (spec : UsageSpec) (a : Address) (key : String) (dflt : Int)
    (h : exactVal spec a key = none) (h2 : wildVal spec a key = none) :
    resolveKey spec a key dflt = dflt := by
  unfold resolveKey
  rw [h, h2]

/-- The read-replica component is in the vCore component list of the
Hyperscale tier. -/
theorem replica_mem_vCore (r : MSSQLDatabase) (h : goToLower r.Tier = sqlHyperscaleTier) :
    r.readReplicaCostComponent ∈ r.vCorePurchaseCostComponents := by
  have hs : goToLower r.Tier ≠ sqlServerlessTier := by
    rw [h]; decide
  unfold MSSQLDatabase.vCorePurchaseCostComponents
  split_ifs <;> simp_all

/-- The extra-data-storage component is in the DTU component list of the
duplicated implementation for non-basic SKUs. -/
theorem extra_mem_dtu_sql (r : SQLDatabase) (h : goToLower r.SKU ≠ "basic")
    (h2 : goToLower r.SKU ≠ "b") :
    r.extraDataStorageCostComponent ∈ r.dtuPurchaseCostComponents := by
  unfold SQLDatabase.dtuPurchaseCostComponents
  simp [h, h2]

/-- The derived extra-data-storage quantity for `s`/`p`-prefixed SKUs:
`MaxSizeGB` minus 500 for Premium (`p`-prefixed) SKUs, minus 250
otherwise, nil when negative. -/
theorem extraStorage_quantity_sp (r : MSSQLDatabase)
    (h : goHasPrefix (goToLower r.SKU) "s" = true ∨ goHasPrefix (goToLower r.SKU) "p" = true)
    (hnone : r.ExtraDataStorageGB = none) (m : Int) (hm : r.MaxSizeGB = some m) :
    (r.extraDataStorageCostComponent (goToLower r.SKU)).monthlyQuantity =
      (if m - (if goHasPrefix (goToLower r.SKU) "p" = true then 500 else 250) < 0 then none
       else some (m - (if goHasPrefix (goToLower r.SKU) "p" = true then 500 else 250))) := by
  rcases h with hs | hp
  · have ht : goTake1 (goToLower r.SKU) = "s" := goTake1_eq_s _ hs
    have hp2 : goHasPrefix (goToLower r.SKU) "p" = false := by
      by_cases hq : goHasPrefix (goToLower r.SKU) "p" = true
      · have hx := goTake1_eq_p _ hq
        rw [ht] at hx
        exact absurd hx (by decide)
      · simpa using hq
    rw [extraStorage_quantity, hnone, hm]
    simp [ht, hp2, show ¬(goToLower (tierMapping "s") = "premium") from by decide]
  · have ht : goTake1 (goToLower r.SKU) = "p" := goTake1_eq_p _ hp
    rw [extraStorage_quantity, hnone, hm]
    simp [ht, hp, show goToLower (tierMapping "p") = "premium" from by decide]

/-- Any derived (non-overridden) extra-data-storage quantity is
non-negative. -/
theorem extraStorage_nonneg (r : MSSQLDatabase) (skuName : String)
    (hnone : r.ExtraDataStorageGB = none) (v : Int)
    (hv : (r.extraDataStorageCostComponent skuName).monthlyQuantity = some v) : 0 ≤ v := by
  rw [extraStorage_quantity, hnone] at hv
  cases hm : r.MaxSizeGB with
  | none => rw [hm] at hv; exact absurd hv (by simp)
  | some m =>
    rw [hm] at hv
    by_cases hlt : m - (if goToLower (tierMapping (goTake1 skuName)) = "premium" then 500 else 250) < 0
    · simp [hlt] at hv
    · simp only [hlt, if_false, if_neg hlt] at hv
      have hveq := Option.some.inj hv
      omega

/-- `isErr` on `Except`: the parse failed. -/
def isErr {ε α : Type} : Except ε α → Bool
  | .error _ => true
  | .ok _ => false

/-- Every `parseMSSQLSku` error message names the resource address. -/
theorem parse_error_names_address (address sku m : String)
    (h : parseMSSQLSku address sku = .error m) : goContains m address = true := by
  unfold parseMSSQLSku at h
  by_cases h1 : (goSplitUnderscore sku).length < 3
  · rw [if_pos h1] at h
    injection h with hm
    rw [← hm, String.append_assoc]
    exact goContains_append _ _ _
  · rw [if_neg h1] at h
    dsimp only at h
    cases ht : mssqlTierOfKey (goJoinUnderscore ((goSplitUnderscore sku).take ((goSplitUnderscore sku).length - 2))) with
    | none =>
      rw [ht] at h
      injection h with hm
      rw [← hm, String.append_assoc]
      exact goContains_append _ _ _
    | some tier =>
      rw [ht] at h
      cases hf : mssqlFamilyOfKey ((goSplitUnderscore sku).getD ((goSplitUnderscore sku).length - 2) "") with
      | none =>
        rw [hf] at h
        injection h with hm
        rw [← hm, String.append_assoc]
        exact goContains_append _ _ _
      | some family =>
        rw [hf] at h
        cases hc : goParseInt64 ((goSplitUnderscore sku).getD ((goSplitUnderscore sku).length - 1) "") with
        | none =>
          rw [hc] at h
          injection h with hm
          rw [← hm, String.append_assoc]
          exact goContains_append _ _ _
        | some cores =>
          rw [hc] at h
          exact absurd h (by simp)

/-- The component list of an optional built resource (empty when the
builder skipped the node). -/
def componentsOfOption : Option Resource → List CostComponent
  | some res => res.costComponents
  | none => []

/-- The monthly quantity of the first component with a given name, when
one exists. -/
def componentQty (l : List CostComponent) (n : String) : Option (Option Int) :=
  (l.find? (fun c => c.name == n)).map (fun c => c.monthlyQuantity)

/-- The regenerated usage file keeps the comment the prior document
attached to any key the fresh template still carries. -/
theorem syncUsageFile_preserves_comment (old : List UsageFileEntry)
    (fresh : List (String × Int)) (k : String) (c : String)
    (hc : entryComment old k = some c) (hk : k ∈ fresh.map Prod.fst) :
    entryComment (syncUsageFile old fresh) k = some c := by
  induction fresh with
  | nil => simp at hk
  | cons p t ih =>
    by_cases hp : p.1 = k
    · unfold syncUsageFile entryComment
      rw [List.map_cons, List.find?_cons_of_pos _ (by simpa using hp)]
      show entryComment old p.1 = some c
      rw [hp]
      exact hc
    · have hk2 : k ∈ t.map Prod.fst := by
        rcases List.mem_map.mp hk with ⟨q, hq, hqk⟩
        rcases List.mem_cons.mp hq with h1 | h1
        · exact absurd (h1 ▸ hqk) hp
        · exact List.mem_map.mpr ⟨q, h1, hqk⟩
      unfold syncUsageFile entryComment
      rw [List.map_cons, List.find?_cons_of_neg _ (by simpa using hp)]
      simpa [syncUsageFile, entryComment] using ih hk2

/-- The regenerated usage file carries the fresh template's data value for
every key of the template. -/
theorem syncUsageFile_value (old : List UsageFileEntry) (fresh : List (String × Int))
    (k : String) (v : Int) (h : (fresh.find? (fun p => p.1 = k)).map Prod.snd = some v) :
    entryValue (syncUsageFile old fresh) k = some v := by
  induction fresh with
  | nil => simp [List.find?] at h
  | cons p t ih =>
    by_cases hp : p.1 = k
    · unfold syncUsageFile entryValue
      rw [List.map_cons, List.find?_cons_of_pos _ (by simpa using hp)]
      rw [List.find?_cons_of_pos _ (by simpa using hp)] at h
      simpa using h
    · unfold syncUsageFile entryValue
      rw [List.map_cons, List.find?_cons_of_neg _ (by simpa using hp)]
      rw [List.find?_cons_of_neg _ (by simpa using hp)] at h
      simpa [syncUsageFile, entryValue] using ih h

/-! ### Claim theorems -/

/-- A vCore database node with no `license_type` attribute. -/
def c1data : ResourceData :=
  { address := "azurerm_mssql_database.example", region := "eastus",
    skuName := some "GP_Gen5_2" }

/-- Claim C1 counterexample: with no explicit `license included` flag set
(the `license_type` attribute is absent), the builder still emits the
`SQL license` component for a provisioned vCore database, because the
constructor defaults the licence type to `LicenseIncluded`. -/
theorem C1_counterexample :
    c1data.licenseType = none ∧
    hasComponentNamed (componentsOfOption (NewAzureRMMSSQLDatabase c1data none))
      "SQL license" :=
  ⟨rfl, by decide⟩

/-- Claim C1 (amended): for every vCore-purchase SQL database (in both
implementations), the builder emits exactly the serverless compute
component plus the storage components when the serverless tier is
selected, and the provisioned compute component with no serverless
compute component otherwise; the `SQL license` component appears exactly
when the resolved licence type equals `license included`
(case-insensitively) and the tier is not serverless — and that licence
type is the constructor's default whenever no `license_type` attribute is
set, so no explicit flag is needed. -/
theorem C1_vcore_purchase_components :
    (∀ r : MSSQLDatabase,
      (goToLower r.Tier = sqlServerlessTier →
        r.vCorePurchaseCostComponents =
          [r.serverlessComputeHoursCostComponent, r.mssqlStorageComponent,
            r.longTermRetentionMSSQLCostComponent]) ∧
      (goToLower r.Tier ≠ sqlServerlessTier →
        r.provisionedComputeCostComponent ∈ r.vCorePurchaseCostComponents ∧
        ∀ c ∈ r.vCorePurchaseCostComponents,
          c.name ≠ "Compute (serverless, " ++ r.SKU ++ ")") ∧
      (hasComponentNamed r.vCorePurchaseCostComponents "SQL license" ↔
        goToLower r.LicenceType = "licenseincluded" ∧
          goToLower r.Tier ≠ sqlServerlessTier)) ∧
    (∀ r : SQLDatabase,
      (goToLower r.Tier = sqlServerlessTier →
        r.vCorePurchaseCostComponents =
          [r.serverlessComputeHoursCostComponent, r.mssqlStorageComponent,
            r.longTermRetentionMSSQLCostComponent]) ∧
      (goToLower r.Tier ≠ sqlServerlessTier →
        r.provisionedComputeCostComponent ∈ r.vCorePurchaseCostComponents ∧
        ∀ c ∈ r.vCorePurchaseCostComponents,
          c.name ≠ "Compute (serverless, " ++ r.SKU ++ ")") ∧
      (hasComponentNamed r.vCorePurchaseCostComponents "SQL license" ↔
        goToLower r.LicenceType = "licenseincluded" ∧
          goToLower r.Tier ≠ sqlServerlessTier)) ∧
    (∀ d : ResourceData, d.licenseType = none →
      (initialMSSQLDatabase d).LicenceType = "LicenseIncluded") :=
  ⟨fun r =>
    ⟨vCore_serverless_shape r,
     fun h => ⟨provisioned_mem_vCore r h, no_serverless_name_vCore r h⟩,
     license_iff_vCore r⟩,
   fun r =>
    ⟨vCore_serverless_shape r.toMSSQL,
     fun h => ⟨provisioned_mem_vCore r.toMSSQL h, no_serverless_name_vCore r.toMSSQL h⟩,
     license_iff_vCore r.toMSSQL⟩,
   fun d h => by simp [initialMSSQLDatabase, h]⟩

/-- A serverless-tier vCore database. -/
def c1serverless : MSSQLDatabase :=
  { Address := "azurerm_mssql_database.sls", Region := "eastus", SKU := "GP_S_Gen5_2",
    LicenceType := "LicenseIncluded", Tier := "General Purpose - Serverless",
    Family := "Compute Gen5", Cores := 2 }

/-- A provisioned-tier vCore database. -/
def c1provisioned : MSSQLDatabase :=
  { Address := "azurerm_mssql_database.gp", Region := "eastus", SKU := "GP_Gen5_2",
    LicenceType := "LicenseIncluded", Tier := "General Purpose",
    Family := "Compute Gen5", Cores := 2 }

/-- Claim C1 witness: the amended theorem at concrete serverless and
provisioned databases and a node without `license_type`. -/
theorem C1_witness :
    c1serverless.vCorePurchaseCostComponents =
      [c1serverless.serverlessComputeHoursCostComponent, c1serverless.mssqlStorageComponent,
        c1serverless.longTermRetentionMSSQLCostComponent] ∧
    c1provisioned.provisionedComputeCostComponent ∈
      c1provisioned.vCorePurchaseCostComponents ∧
    hasComponentNamed c1provisioned.vCorePurchaseCostComponents "SQL license" ∧
    (initialMSSQLDatabase c1data).LicenceType = "LicenseIncluded" :=
  ⟨(C1_vcore_purchase_components.1 c1serverless).1 (by decide),
   ((C1_vcore_purchase_components.1 c1provisioned).2.1 (by decide)).1,
   (C1_vcore_purchase_components.1 c1provisioned).2.2.mpr ⟨by decide, by decide⟩,
   C1_vcore_purchase_components.2.2 c1data rfl⟩

/-- A DTU database (standard SKU `S0`) with 500 GB max size. -/
def c2dtu : MSSQLDatabase :=
  { Address := "azurerm_mssql_database.dtu", Region := "eastus", SKU := "S0",
    MaxSizeGB := some 500 }

/-- A Hyperscale vCore database with 500 GB max size and long-term
retention usage supplied. -/
def c2hyperscale : MSSQLDatabase :=
  { Address := "azurerm_mssql_database.hs", Region := "eastus", SKU := "HS_Gen5_2",
    Tier := "Hyperscale", Family := "Compute Gen5", Cores := 2,
    MaxSizeGB := some 500, LongTermRetentionStorageGB := some 100 }

/-- Claim C2 counterexample: a DTU-purchase database with
`max_size_gb = 500` reports no component named `Storage` at all, and a
Hyperscale database reports no `Long-term retention` component even
though the `long_term_retention_storage_gb = 100` usage is supplied. -/
theorem C2_counterexample :
    (c2dtu.MaxSizeGB = some 500 ∧
      ¬hasComponentNamed (c2dtu.BuildResource).costComponents "Storage") ∧
    (c2hyperscale.LongTermRetentionStorageGB = some 100 ∧
      ¬hasComponentNamed (c2hyperscale.BuildResource).costComponents
        "Long-term retention") := by
  decide

/-- Claim C2 (amended): for every vCore-purchase SQL database with
`max_size_gb = 500`, the builder reports a `Storage` component with
monthly quantity 500 (independently of any usage); and whenever the
`long_term_retention_storage_gb = 100` usage is supplied and the tier is
not Hyperscale, it also reports a `Long-term retention` component with
monthly quantity 100, independent of `max_size_gb`. -/
theorem C2_storage_quantities :
    (∀ r : MSSQLDatabase, r.MaxSizeGB = some 500 →
      ∃ c ∈ r.vCorePurchaseCostComponents,
        c.name = "Storage" ∧ c.monthlyQuantity = some 500) ∧
    (∀ r : MSSQLDatabase, r.LongTermRetentionStorageGB = some 100 →
      goToLower r.Tier ≠ sqlHyperscaleTier →
      ∃ c ∈ r.vCorePurchaseCostComponents,
        c.name = "Long-term retention" ∧ c.monthlyQuantity = some 100) :=
  ⟨fun r h =>
    ⟨r.mssqlStorageComponent, storage_mem_vCore r,
      rfl, by simp [MSSQLDatabase.mssqlStorageComponent, h]⟩,
   fun r h hT =>
    ⟨r.longTermRetentionMSSQLCostComponent, ltr_mem_vCore r hT,
      rfl, by simp [MSSQLDatabase.longTermRetentionMSSQLCostComponent, h]⟩⟩

/-- A non-Hyperscale vCore database with 500 GB max size and long-term
retention usage. -/
def c2vcore : MSSQLDatabase :=
  { Address := "azurerm_mssql_database.gp", Region := "eastus", SKU := "GP_Gen5_2",
    Tier := "General Purpose", Family := "Compute Gen5", Cores := 2,
    MaxSizeGB := some 500, LongTermRetentionStorageGB := some 100 }

/-- Claim C2 witness: the amended theorem at a concrete General Purpose
database. -/
theorem C2_witness :
    (∃ c ∈ c2vcore.vCorePurchaseCostComponents,
      c.name = "Storage" ∧ c.monthlyQuantity = some 500) ∧
    (∃ c ∈ c2vcore.vCorePurchaseCostComponents,
      c.name = "Long-term retention" ∧ c.monthlyQuantity = some 100) :=
  ⟨C2_storage_quantities.1 c2vcore rfl,
   C2_storage_quantities.2 c2vcore rfl (by decide)⟩

/-- Claim C8: in both implementations, the `Read replicas` component is
present exactly when the tier is Hyperscale (case-insensitively), and the
`Long-term retention` component exactly when it is not — regardless of
all other fields, including a supplied `long_term_retention_storage_gb`
usage. -/
theorem C8_replicas_and_retention :
    (∀ r : MSSQLDatabase,
      (hasComponentNamed r.vCorePurchaseCostComponents "Read replicas" ↔
        goToLower r.Tier = sqlHyperscaleTier) ∧
      (hasComponentNamed r.vCorePurchaseCostComponents "Long-term retention" ↔
        goToLower r.Tier ≠ sqlHyperscaleTier)) ∧
    (∀ r : SQLDatabase,
      (hasComponentNamed r.vCorePurchaseCostComponents "Read replicas" ↔
        goToLower r.Tier = sqlHyperscaleTier) ∧
      (hasComponentNamed r.vCorePurchaseCostComponents "Long-term retention" ↔
        goToLower r.Tier ≠ sqlHyperscaleTier)) :=
  ⟨fun r => ⟨replicas_iff_vCore r, retention_iff_vCore r⟩,
   fun r => ⟨replicas_iff_vCore r.toMSSQL, retention_iff_vCore r.toMSSQL⟩⟩

/-- One licence region among the four catalog regions. -/
theorem licenseRegion_mem_four (region : String) :
    mssqlLicenseRegion region = "US Gov" ∨ mssqlLicenseRegion region = "China" ∨
      mssqlLicenseRegion region = "Germany" ∨ mssqlLicenseRegion region = "Global" := by
  unfold mssqlLicenseRegion
  split_ifs <;> simp

/-- Claim C9: in both implementations, the `SQL license` component's
product-filter region is computed from the resource region by the
substring chain `usgov` before `china` before `germany` (a later match
overriding an earlier one), defaulting to `Global`, and is always one of
`US Gov`, `China`, `Germany`, `Global`. -/
theorem C9_license_region :
    (∀ r : MSSQLDatabase,
      r.sqlLicenseCostComponent.productFilter.map ProductFilter.region =
        some (some (mssqlLicenseRegion r.Region)) ∧
      (mssqlLicenseRegion r.Region = "US Gov" ∨ mssqlLicenseRegion r.Region = "China" ∨
        mssqlLicenseRegion r.Region = "Germany" ∨ mssqlLicenseRegion r.Region = "Global") ∧
      (goContains r.Region "germany" = true → mssqlLicenseRegion r.Region = "Germany") ∧
      (goContains r.Region "germany" = false → goContains r.Region "china" = true →
        mssqlLicenseRegion r.Region = "China") ∧
      (goContains r.Region "germany" = false → goContains r.Region "china" = false →
        goContains r.Region "usgov" = true → mssqlLicenseRegion r.Region = "US Gov") ∧
      (goContains r.Region "germany" = false → goContains r.Region "china" = false →
        goContains r.Region "usgov" = false → mssqlLicenseRegion r.Region = "Global")) ∧
    (∀ r : SQLDatabase,
      r.sqlLicenseCostComponent.productFilter.map ProductFilter.region =
        some (some (mssqlLicenseRegion r.Region))) :=
  ⟨fun r =>
    ⟨rfl, licenseRegion_mem_four r.Region,
     fun h => by simp [mssqlLicenseRegion, h],
     fun h1 h2 => by simp [mssqlLicenseRegion, h1, h2],
     fun h1 h2 h3 => by simp [mssqlLicenseRegion, h1, h2, h3],
     fun h1 h2 h3 => by simp [mssqlLicenseRegion, h1, h2, h3]⟩,
   fun r => rfl⟩

/-- A database in a region whose name contains both `usgov` and `china`. -/
def c9db : MSSQLDatabase :=
  { Address := "azurerm_mssql_database.cn", Region := "usgovchina2",
    SKU := "GP_Gen5_2", Tier := "General Purpose", Family := "Compute Gen5", Cores := 2 }

/-- Claim C9 witness: for a region containing both `usgov` and `china`,
the later `china` test overrides, and the filter region is `China`, not
the resource region. -/
theorem C9_witness :
    c9db.sqlLicenseCostComponent.productFilter.map ProductFilter.region =
      some (some (mssqlLicenseRegion c9db.Region)) ∧
    mssqlLicenseRegion c9db.Region = "China" :=
  ⟨(C9_license_region.1 c9db).1,
   (C9_license_region.1 c9db).2.2.2.1 (by decide) (by decide)⟩

/-- A DTU database with an explicitly negative `extra_data_storage_gb`
usage value. -/
def c10dtu : MSSQLDatabase :=
  { Address := "azurerm_mssql_database.neg", Region := "eastus", SKU := "S0",
    MaxSizeGB := some 1000, ExtraDataStorageGB := some (-1) }

/-- Claim C10 counterexample: an explicit `extra_data_storage_gb = -1`
usage value replaces the derived value without any clamping, so the
`Extra data storage` monthly quantity is negative. -/
theorem C10_counterexample :
    (∃ c ∈ c10dtu.dtuPurchaseCostComponents,
      c.name = "Extra data storage" ∧ c.monthlyQuantity = some (-1)) ∧
    (-1 : Int) < 0 := by
  decide

/-- Claim C10 (amended): for every DTU-purchase (non-basic) database in
both implementations, the derived `Extra data storage` monthly quantity
is never negative: with no `extra_data_storage_gb` usage it equals
`MaxSizeGB` minus 500 for Premium (`p`-prefixed) SKUs or minus 250
otherwise, set to nil whenever that difference is negative; an explicit
usage value replaces the derived value entirely regardless of
`MaxSizeGB`, and is used unclamped (so only the derived value is
guaranteed non-negative). -/
theorem C10_extra_storage :
    (∀ r : MSSQLDatabase,
      goToLower r.SKU ≠ "basic" →
      (goHasPrefix (goToLower r.SKU) "s" = true ∨ goHasPrefix (goToLower r.SKU) "p" = true) →
      r.extraDataStorageCostComponent (goToLower r.SKU) ∈ r.dtuPurchaseCostComponents ∧
      (r.ExtraDataStorageGB = none →
        (∀ m, r.MaxSizeGB = some m →
          (r.extraDataStorageCostComponent (goToLower r.SKU)).monthlyQuantity =
            (if m - (if goHasPrefix (goToLower r.SKU) "p" = true then 500 else 250) < 0 then
              none
             else some (m - (if goHasPrefix (goToLower r.SKU) "p" = true then 500 else 250)))) ∧
        ∀ v, (r.extraDataStorageCostComponent (goToLower r.SKU)).monthlyQuantity = some v →
          0 ≤ v) ∧
      (∀ e, r.ExtraDataStorageGB = some e →
        (r.extraDataStorageCostComponent (goToLower r.SKU)).monthlyQuantity = some e)) ∧
    (∀ r : SQLDatabase,
      goToLower r.SKU ≠ "basic" →
      (goHasPrefix (goToLower r.SKU) "s" = true ∨ goHasPrefix (goToLower r.SKU) "p" = true) →
      r.extraDataStorageCostComponent ∈ r.dtuPurchaseCostComponents ∧
      (r.ExtraDataStorageGB = none →
        ∀ v, r.extraDataStorageCostComponent.monthlyQuantity = some v → 0 ≤ v) ∧
      (∀ e, r.ExtraDataStorageGB = some e →
        r.extraDataStorageCostComponent.monthlyQuantity = some e)) :=
  ⟨fun r h hsp =>
    ⟨by
      rw [dtu_shape r h (ne_b_of_sp _ hsp)]
      simp,
     fun hnone =>
      ⟨fun m hm => extraStorage_quantity_sp r hsp hnone m hm,
       fun v hv => extraStorage_nonneg r _ hnone v hv⟩,
     fun e he => by
      rw [extraStorage_quantity, he]⟩,
   fun r h hsp =>
    ⟨extra_mem_dtu_sql r h (ne_b_of_sp _ hsp),
     fun hnone v hv => extraStorage_nonneg r.toMSSQL (goToLower r.SKU) hnone v hv,
     fun e he => by
      rw [SQLDatabase.extraStorage_toMSSQL, extraStorage_quantity]
      have he2 : r.toMSSQL.ExtraDataStorageGB = some e := he
      rw [he2]⟩⟩

/-- A Standard-SKU DTU database with 500 GB max size and no usage. -/
def c10std : MSSQLDatabase :=
  { Address := "azurerm_mssql_database.std", Region := "eastus", SKU := "S0",
    MaxSizeGB := some 500 }

/-- Claim C10 witness: the amended theorem at a concrete Standard DTU
database, whose derived quantity is `500 - 250 = 250`. -/
theorem C10_witness :
    c10std.extraDataStorageCostComponent (goToLower c10std.SKU) ∈
      c10std.dtuPurchaseCostComponents ∧
    (c10std.extraDataStorageCostComponent (goToLower c10std.SKU)).monthlyQuantity =
      some 250 :=
  ⟨(C10_extra_storage.1 c10std (by decide) (Or.inl (by decide))).1,
   (((C10_extra_storage.1 c10std (by decide) (Or.inl (by decide))).2.1 rfl).1 500 rfl).trans
     (by decide)⟩

/-- Claim C4: for every node whose `sku_name` is not `basic` and does not
start with `s` or `p` (case-insensitively), and whose SKU does not parse
as underscore-separated tier, family and core count, the builder returns
`none` — the resource is skipped, with the parse error naming the
resource address — rather than failing the run. -/
theorem C4_unsupported_sku_skipped :
    ∀ (d : ResourceData) (u : UsageData),
      goToLower (d.skuName.getD "") ≠ "basic" →
      goHasPrefix (goToLower (d.skuName.getD "")) "s" = false →
      goHasPrefix (goToLower (d.skuName.getD "")) "p" = false →
      isErr (parseMSSQLSku d.address (d.skuName.getD "")) = true →
      NewAzureRMMSSQLDatabase d u = none ∧
      ∃ msg, parseMSSQLSku d.address (d.skuName.getD "") = .error msg ∧
        goContains msg d.address = true := by
  intro d u h1 h2 h3 h4
  cases hp : parseMSSQLSku d.address (d.skuName.getD "") with
  | ok c =>
    rw [hp] at h4
    exact absurd h4 (by simp [isErr])
  | error m =>
    constructor
    · unfold NewAzureRMMSSQLDatabase
      dsimp only
      have hcond : goToLower (d.skuName.getD "") ≠ "basic" ∧
          ¬goHasPrefix (goToLower (d.skuName.getD "")) "s" ∧
          ¬goHasPrefix (goToLower (d.skuName.getD "")) "p" :=
        ⟨h1, by simp [h2], by simp [h3]⟩
      rw [if_pos hcond, hp]
    · exact ⟨m, rfl, parse_error_names_address _ _ _ hp⟩

/-- A node whose SKU has an unrecognised family segment. -/
def c4data : ResourceData :=
  { address := "azurerm_mssql_database.bad", region := "eastus",
    skuName := some "GP_Foo_2" }

/-- Claim C4 witness: the theorem at a concrete unparsable SKU. -/
theorem C4_witness :
    NewAzureRMMSSQLDatabase c4data none = none ∧
    ∃ msg, parseMSSQLSku c4data.address (c4data.skuName.getD "") = .error msg ∧
      goContains msg c4data.address = true :=
  C4_unsupported_sku_skipped c4data none (by decide) (by decide) (by decide) (by decide)

/-- A serverless vCore database node, built with no usage data. -/
def c5data : ResourceData :=
  { address := "azurerm_mssql_database.sls", region := "eastus",
    skuName := some "GP_S_Gen5_2" }

/-- Claim C5 counterexample: an MSSQL database built with no usage data
leaves `monthly_vcore_hours` undefined, so the serverless compute
component carries a nil monthly quantity — not the declared default 0
(which would appear as `some (some 0)`). -/
theorem C5_counterexample :
    componentQty (componentsOfOption (NewAzureRMMSSQLDatabase c5data none))
      "Compute (serverless, GP_S_Gen5_2)" = some none := by
  decide

/-- Claim C5 (amended): in the usage-resolution view every declared usage
key resolves to an explicit value (exact or wildcard) or its declared
default, never left unresolved; but populating a resource copies only the
values present in its usage data — nil usage data leaves the resource
unchanged, so an MSSQL database built with no usage data keeps
`monthly_vcore_hours` nil and its serverless compute component a nil
monthly quantity, while the default 0 lives only in the declared
`UsageSchema` of the built resource. -/
theorem C5_usage_resolution :
    (∀ (spec : UsageSpec) (a : Address) (it : UsageItem),
      (∃ v, exactVal spec a it.key = some v ∧
        resolveKey spec a it.key it.defaultValue = v) ∨
      (exactVal spec a it.key = none ∧
        ∃ v, wildVal spec a it.key = some v ∧
          resolveKey spec a it.key it.defaultValue = v) ∨
      (exactVal spec a it.key = none ∧ wildVal spec a it.key = none ∧
        resolveKey spec a it.key it.defaultValue = it.defaultValue)) ∧
    (∀ r : MSSQLDatabase, populateUsage r none = r) ∧
    (∀ r : MSSQLDatabase, r.MonthlyVCoreHours = none →
      r.serverlessComputeHoursCostComponent.monthlyQuantity = none) ∧
    (∀ r : MSSQLDatabase,
      { key := "monthly_vcore_hours", defaultValue := 0 } ∈ (r.BuildResource).usageSchema) :=
  ⟨fun spec a it => by
    cases he : exactVal spec a it.key with
    | some v => exact Or.inl ⟨v, rfl, resolveKey_exact spec a it.key it.defaultValue v he⟩
    | none =>
      cases hw : wildVal spec a it.key with
      | some v =>
        exact Or.inr (Or.inl ⟨rfl, v, rfl,
          resolveKey_wild spec a it.key it.defaultValue v he hw⟩)
      | none =>
        exact Or.inr (Or.inr ⟨rfl, rfl,
          resolveKey_default spec a it.key it.defaultValue he hw⟩),
   populateUsage_none,
   fun r h => by simp [MSSQLDatabase.serverlessComputeHoursCostComponent, h],
   fun r => by simp [MSSQLDatabase.BuildResource]⟩

/-- A serverless vCore database value with no usage populated. -/
def c5mss : MSSQLDatabase :=
  { Address := "azurerm_mssql_database.sls", Region := "eastus", SKU := "GP_S_Gen5_2",
    Tier := "General Purpose - Serverless", Family := "Compute Gen5" }

/-- Claim C5 witness: the amended theorem at a concrete serverless
database with nil usage fields. -/
theorem C5_witness :
    c5mss.serverlessComputeHoursCostComponent.monthlyQuantity = none ∧
    populateUsage c5mss none = c5mss ∧
    ({ key := "monthly_vcore_hours", defaultValue := 0 } : UsageItem) ∈
      (c5mss.BuildResource).usageSchema :=
  ⟨C5_usage_resolution.2.2.1 c5mss rfl,
   C5_usage_resolution.2.1 c5mss,
   C5_usage_resolution.2.2.2 c5mss⟩

/-- Claim C6: a cost component with a nil quantity is still emitted and
retained — for a Hyperscale database with no `read_replica_count`
attribute the `Read replicas` component is present with a nil hourly
quantity — and any component lacking both quantities contributes zero to
the aggregated cost instead of being dropped or erroring. -/
theorem C6_nil_quantity_component_retained :
    (∀ r : MSSQLDatabase, goToLower r.Tier = sqlHyperscaleTier →
      r.ReadReplicaCount = none →
      r.readReplicaCostComponent ∈ r.vCorePurchaseCostComponents ∧
      r.readReplicaCostComponent.hourlyQuantity = none ∧
      r.readReplicaCostComponent.monthlyQuantity = none ∧
      ∀ price : ℚ, componentCost r.readReplicaCostComponent price = 0) ∧
    (∀ d : ResourceData, d.readReplicaCount = none →
      (initialMSSQLDatabase d).ReadReplicaCount = none) ∧
    (∀ (c : CostComponent) (price : ℚ), c.hourlyQuantity = none →
      c.monthlyQuantity = none → componentCost c price = 0) :=
  ⟨fun r hT hrep =>
    ⟨replica_mem_vCore r hT,
     by simp [MSSQLDatabase.readReplicaCostComponent, hrep],
     rfl,
     fun price => by simp [componentCost, MSSQLDatabase.readReplicaCostComponent, hrep]⟩,
   fun d h => by simp [initialMSSQLDatabase, h],
   fun c price h1 h2 => by simp [componentCost, h1, h2]⟩

/-- A Hyperscale database with no read-replica count. -/
def c6hs : MSSQLDatabase :=
  { Address := "azurerm_mssql_database.hs", Region := "eastus", SKU := "HS_Gen5_2",
    Tier := "Hyperscale", Family := "Compute Gen5", Cores := 2 }

/-- Claim C6 witness: the theorem at a concrete Hyperscale database. -/
theorem C6_witness :
    c6hs.readReplicaCostComponent ∈ c6hs.vCorePurchaseCostComponents ∧
    c6hs.readReplicaCostComponent.hourlyQuantity = none ∧
    componentCost c6hs.readReplicaCostComponent 3 = 0 :=
  ⟨(C6_nil_quantity_component_retained.1 c6hs (by decide) rfl).1,
   (C6_nil_quantity_component_retained.1 c6hs (by decide) rfl).2.1,
   (C6_nil_quantity_component_retained.1 c6hs (by decide) rfl).2.2.2 3⟩

/-- A usage spec with a wildcard entry for a base address and a more
specific entry for its index 0. -/
def c3spec : UsageSpec :=
  [(.addr "aws_instance.base" (some "0"), [("k", 9)]),
   (.wild "aws_instance.base", [("k", 7)])]

/-- Claim C3: the usage resolution follows the precedence exact address
over wildcard `base[*]` (which applies to any index of that base) over
the declared default, every schema key receives its resolved value, and
on the concrete two-entry spec the `base[0]` entry overrides the wildcard
for index 0 only while indices 5 and 1 take the wildcard value. -/
theorem C3_usage_precedence :
    (∀ (spec : UsageSpec) (a : Address) (key : String) (dflt v : Int),
      exactVal spec a key = some v → resolveKey spec a key dflt = v) ∧
    (∀ (spec : UsageSpec) (a : Address) (key : String) (dflt w : Int),
      exactVal spec a key = none → wildVal spec a key = some w →
      resolveKey spec a key dflt = w) ∧
    (∀ (spec : UsageSpec) (a : Address) (key : String) (dflt : Int),
      exactVal spec a key = none → wildVal spec a key = none →
      resolveKey spec a key dflt = dflt) ∧
    (∀ (spec : UsageSpec) (a : Address) (schema : List UsageItem),
      ∀ it ∈ schema,
        (it.key, resolveKey spec a it.key it.defaultValue) ∈ resolveUsage spec a schema) ∧
    (resolveKey c3spec { base := "aws_instance.base", index := some "0" } "k" 0 = 9 ∧
     resolveKey c3spec { base := "aws_instance.base", index := some "5" } "k" 0 = 7 ∧
     resolveKey c3spec { base := "aws_instance.base", index := some "1" } "k" 0 = 7) :=
  ⟨resolveKey_exact, resolveKey_wild, resolveKey_default,
   fun spec a schema it h => List.mem_map.mpr ⟨it, h, rfl⟩,
   by decide, by decide, by decide⟩

/-- Claim C3 witness: the precedence theorem applied at the concrete
two-entry spec. -/
theorem C3_witness :
    resolveKey c3spec { base := "aws_instance.base", index := some "0" } "k" 0 = 9 ∧
    resolveKey c3spec { base := "aws_instance.base", index := some "5" } "k" 0 = 7 ∧
    resolveKey c3spec { base := "aws_instance.base", index := some "9" } "k" 3 = 7 :=
  ⟨C3_usage_precedence.1 c3spec { base := "aws_instance.base", index := some "0" } "k" 0 9
    (by decide),
   C3_usage_precedence.2.1 c3spec { base := "aws_instance.base", index := some "5" } "k" 0 7
    (by decide) (by decide),
   C3_usage_precedence.2.1 c3spec { base := "aws_instance.base", index := some "9" } "k" 3 7
    (by decide) (by decide)⟩

/-- Claim C7: regenerating the usage file from a prior document preserves
every hand-written comment attached to a key the fresh template still
carries, while the data values are the updated or added template
values. -/
theorem C7_sync_preserves_comments :
    ∀ (old : List UsageFileEntry) (fresh : List (String × Int)) (k c : String),
      entryComment old k = some c → k ∈ fresh.map Prod.fst →
      entryComment (syncUsageFile old fresh) k = some c ∧
      ∀ v, (fresh.find? (fun p => p.1 = k)).map Prod.snd = some v →
        entryValue (syncUsageFile old fresh) k = some v :=
  fun old fresh k c hc hk =>
    ⟨syncUsageFile_preserves_comment old fresh k c hc hk,
     fun v hv => syncUsageFile_value old fresh k v hv⟩

/-- A prior usage file with a hand-written comment on `object_tags`. -/
def c7old : List UsageFileEntry :=
  [{ key := "object_tags", value := 10000000, comment := some "kept on regeneration" }]

/-- The fresh template regenerated for the same resource. -/
def c7fresh : List (String × Int) := [("object_tags", 10000000), ("storage_gb", 0)]

/-- Claim C7 witness: the theorem at a concrete document and template. -/
theorem C7_witness :
    entryComment (syncUsageFile c7old c7fresh) "object_tags" =
      some "kept on regeneration" ∧
    entryValue (syncUsageFile c7old c7fresh) "object_tags" = some 10000000 :=
  ⟨(C7_sync_preserves_comments c7old c7fresh "object_tags" "kept on regeneration"
      (by decide) (by decide)).1,
   (C7_sync_preserves_comments c7old c7fresh "object_tags" "kept on regeneration"
      (by decide) (by decide)).2 10000000 (by decide)⟩

end Infracost








